import Mathlib

/-!
Shallow embedding of the two core source files of `enfyra-page-be`:

* `src/infrastructure/redis/services/package-cache.service.ts`
  (the SWR package cache: `loadAndCachePackages`, `reloadPackageCache`,
  `getPackagesWithSWR`, `backgroundRevalidate`), and
* `src/modules/table-management/services/table-handler.service.ts`
  (the schema mutation engine: `createTable`, `updateTable`, `delete`,
  `afterEffect`).

Stateful code is embedded as explicit state passing; every operation also
returns an event trace recording the externally visible actions in order.
The distributed KV primitive (`RedisLockService`) and two small utility
functions are not under `src/`, so their semantics are modelled from the
spec; each such definition carries a `Modelled from the spec:` doc comment.
-/

deriving instance DecidableEq for Except

namespace Enfyra

/-! ## The distributed KV primitive (modelled from the spec) -/

/-- Modelled from the spec: `RedisLockService.acquire(key, value, ttlMs)` is
"set-if-absent, true if this caller won".  The TTL is recorded in the event
trace, not in the state (the embedding has no clock).  Returns the
`won` flag together with the new stored value of the key. -/
def kvAcquire {α : Type} (cur : Option α) (v : α) : Bool × Option α :=
  match cur with
  | some w => (false, some w)
  | none => (true, some v)

/-- Modelled from the spec: `RedisLockService.set(key, value, ttlMs)` is an
unconditional write (`ttlMs = 0` meaning no expiry). -/
def kvSet {α : Type} (_cur : Option α) (v : α) : Option α :=
  some v

/-- Modelled from the spec: `RedisLockService.release(key, expectedValue)` is
compare-and-delete: the key is deleted only when it currently holds
`expectedValue`; returns whether the delete happened. -/
def kvRelease {α : Type} [DecidableEq α] (cur : Option α) (expected : α) :
    Bool × Option α :=
  match cur with
  | some w => if w = expected then (true, none) else (false, some w)
  | none => (false, none)

/-! ## Cache state and events -/

def GLOBAL_PACKAGES_KEY : String := "global:packages"
def STALE_PACKAGES_KEY : String := "stale:packages"
def REVALIDATING_PACKAGES_KEY : String := "revalidating:packages"

/-- The three cache keys the package cache service touches.  `primary` is
`global:packages`, `stale` is `stale:packages`, `revalidating` is
`revalidating:packages` (holding the marker string `"true"` while a
background refresh is in flight). -/
structure CacheState where
  primary : Option (List String)
  stale : Option (List String)
  revalidating : Option String
deriving DecidableEq

/-- Externally visible cache actions, in the order the service performs
them.  TTLs (in milliseconds) are recorded here. -/
inductive CacheEvent where
  | getE (key : String)
  | acquireE (key : String) (ttlMs : Nat) (won : Bool)
  | setE (key : String) (ttlMs : Nat)
  | releaseE (key : String) (released : Bool)
  | dbLoadE (ok : Bool)
deriving DecidableEq

/-- One row of the `package_definition` table. -/
structure PackageRow where
  name : String
  isEnabled : Bool
  type : String
deriving DecidableEq

/-- The external world the cache service runs against: the package table
rows and whether the database query succeeds. -/
structure CacheEnv where
  rows : List PackageRow
  dbOk : Bool
deriving DecidableEq

/-! ## The package cache service -/

/-- `loadPackages`: the names of all rows with `isEnabled = true` and
`type = 'Backend'`. -/
def loadPackages (rows : List PackageRow) : List String :=
  (rows.filter (fun p => p.isEnabled && p.type == "Backend")).map (·.name)

/-- The outcome of the database query behind `loadPackages`: the row read
itself can fail (the service has no handler for that). -/
def loadPackagesR (env : CacheEnv) : Except String (List String) :=
  if env.dbOk then .ok (loadPackages env.rows) else .error "db error"

/-- `loadAndCachePackages`: load from the database, then write the primary
key with `acquire` (set-if-absent, 5-minute TTL) and the stale key with
`set` (no expiry), returning the freshly loaded snapshot.  A database
failure propagates (there is no try/catch in the source). -/
def loadAndCachePackages (env : CacheEnv) (s : CacheState) :
    Except String (List String) × CacheState × List CacheEvent :=
  match loadPackagesR env with
  | .error e => (.error e, s, [.dbLoadE false])
  | .ok packages =>
    let (won, p) := kvAcquire s.primary packages
    let st := kvSet s.stale packages
    (.ok packages, { s with primary := p, stale := st },
      [.dbLoadE true, .acquireE GLOBAL_PACKAGES_KEY 300000 won,
        .setE STALE_PACKAGES_KEY 0])

/-- `reloadPackageCache`: load from the database and unconditionally
overwrite both the primary key (5-minute TTL) and the stale key (no
expiry).  The whole body is wrapped in try/catch: a failure is logged and
swallowed, never propagated. -/
def reloadPackageCache (env : CacheEnv) (s : CacheState) :
    CacheState × List CacheEvent :=
  match loadPackagesR env with
  | .error _ => (s, [.dbLoadE false])
  | .ok packages =>
    ({ s with primary := kvSet s.primary packages,
              stale := kvSet s.stale packages },
      [.dbLoadE true, .setE GLOBAL_PACKAGES_KEY 300000,
        .setE STALE_PACKAGES_KEY 0])

/-- `backgroundRevalidate`: try to acquire the `revalidating` marker
(set-if-absent, value `"true"`, 30s TTL).  On failure return immediately;
on success run `reloadPackageCache` and then, in a `finally`, release the
marker by compare-and-delete with expected value `"true"`. -/
def backgroundRevalidate (env : CacheEnv) (s : CacheState) :
    CacheState × List CacheEvent :=
  let (acquired, r) := kvAcquire s.revalidating "true"
  let s1 := { s with revalidating := r }
  if acquired then
    let (s2, evs) := reloadPackageCache env s1
    let (released, r2) := kvRelease s2.revalidating "true"
    ({ s2 with revalidating := r2 },
      [CacheEvent.acquireE REVALIDATING_PACKAGES_KEY 30000 true] ++ evs ++
        [CacheEvent.releaseE REVALIDATING_PACKAGES_KEY released])
  else
    (s1, [CacheEvent.acquireE REVALIDATING_PACKAGES_KEY 30000 false])

/-- The outcome of one `getPackagesWithSWR` call.  The background
revalidation is fire-and-forget in the source
(`this.backgroundRevalidate().catch(...)`), so the read path records only
whether it was started; `backgroundRevalidate` itself is the detached
task. -/
structure SWRResult where
  result : Except String (List String)
  state : CacheState
  events : List CacheEvent
  revalidationStarted : Bool

/-- `getPackagesWithSWR`: read `primary`; if present return it.  Otherwise
read `stale` and the `revalidating` marker concurrently; if `stale` is
present, return it, starting a background revalidation exactly when the
marker is absent.  If `stale` is also absent, fall back to a synchronous
`loadAndCachePackages`. -/
def getPackagesWithSWR (env : CacheEnv) (s : CacheState) : SWRResult :=
  match s.primary with
  | some cachedPackages =>
    ⟨.ok cachedPackages, s, [.getE GLOBAL_PACKAGES_KEY], false⟩
  | none =>
    let stalePackages := s.stale
    let isRevalidating := s.revalidating
    let baseEvents := [CacheEvent.getE GLOBAL_PACKAGES_KEY,
      CacheEvent.getE STALE_PACKAGES_KEY,
      CacheEvent.getE REVALIDATING_PACKAGES_KEY]
    match stalePackages with
    | some v =>
      ⟨.ok v, s, baseEvents, isRevalidating.isNone⟩
    | none =>
      let (res, s1, evs) := loadAndCachePackages env s
      ⟨res, s1, baseEvents ++ evs, false⟩

/-! ## Schema mutation engine: data model -/

/-- A `column_definition` row (or a submitted column draft).  `id` is absent
on drafts not yet persisted; `table` is the back-reference to the owning
table. -/
structure ColumnDef where
  id : Option Nat
  name : String
  type : String
  isPrimary : Bool
  table : Option Nat
deriving DecidableEq

/-- A `relation_definition` row (or a submitted relation draft). -/
structure RelationDef where
  id : Option Nat
  propertyName : String
  type : String
  inversePropertyName : Option String
  sourceTable : Option Nat
  targetTable : Option Nat
deriving DecidableEq

/-- A `table_definition` row with its loaded columns and relations. -/
structure TableDef where
  id : Nat
  name : String
  columns : List ColumnDef
  relations : List RelationDef
deriving DecidableEq

/-- A `route_definition` row. -/
structure RouteDef where
  path : String
  mainTable : Nat
  isEnabled : Bool
deriving DecidableEq

/-- A physical foreign-key constraint as seen by catalog introspection:
its name, the table it lives on, and the table it references. -/
structure FKConstraint where
  name : String
  table : String
  referencedTable : Option String
deriving DecidableEq

/-- The metadata rows plus the physical schema. `nextId` models the
auto-assigned id of the next inserted `table_definition` row. -/
structure DBState where
  tables : List TableDef
  routes : List RouteDef
  physicalTables : List String
  foreignKeys : List FKConstraint
  nextId : Nat
deriving DecidableEq

/-- Which physical `DROP FOREIGN KEY` statements fail (by constraint
name); the service logs and skips those. -/
structure TableEnv where
  fkDropFails : List String
deriving DecidableEq

/-- The body of a create/update request: a table draft. -/
structure CreateBody where
  name : String
  columns : List ColumnDef
  relations : List RelationDef
deriving DecidableEq

/-- The typed errors of `custom-exceptions` that the table handler
throws.  `validation` carries the `relationName` detail. -/
inductive AppError where
  | validation (msg : String) (relationName : String)
  | duplicateResource (resource field value : String)
  | resourceNotFound (resource idStr : String)
  | database (msg : String)
deriving DecidableEq

/-- Externally visible actions of the table handler, in order. -/
inductive TableEvent where
  | saveTable (name : String)
  | saveRoute (path : String)
  | hookE (entityName : String) (hookType : String)
  | deleteColumns (ids : List Nat)
  | deleteRelations (ids : List Nat)
  | deleteRoutes (tableId : Nat)
  | deleteTargetRelations (tableId : Nat)
  | dropReferencingFK (name : String) (ok : Bool)
  | dropOutgoingFK (name : String) (ok : Bool)
  | dropPhysicalTable (name : String)
  | removeMetadata (tableId : Nat)
deriving DecidableEq

/-! ## Error classification (the catch blocks string-match messages) -/

/-- `error.message.includes(pat)` of JavaScript: substring test. -/
def strIncludes (s pat : String) : Bool :=
  decide (pat.data <:+: s.data)

/-- The catch block of `createTable`: a message containing
`already exists` becomes `DuplicateResourceException('Table','name',name)`;
everything else is wrapped as a `DatabaseException`. -/
def classifyCreateError (msg name : String) : AppError :=
  if strIncludes msg "already exists" then .duplicateResource "Table" "name" name
  else .database ("Failed to create table: " ++ msg)

/-- The catch block of `updateTable`: a message containing
`does not exist` becomes `ResourceNotFoundException('Table', id)`. -/
def classifyUpdateError (msg : String) (idv : Nat) : AppError :=
  if strIncludes msg "does not exist" then .resourceNotFound "Table" (toString idv)
  else .database ("Failed to update table: " ++ msg)

/-- The catch block of `delete`: same `does not exist` match. -/
def classifyDeleteError (msg : String) (idv : Nat) : AppError :=
  if strIncludes msg "does not exist" then .resourceNotFound "Table" (toString idv)
  else .database ("Failed to delete table: " ++ msg)

/-! ## Validation helpers -/

/-- `validateRelations`: throws a `ValidationException` naming the first
`one-to-many` relation lacking `inversePropertyName`.  Runs before the
try block, so its error reaches the caller unwrapped. -/
def validateRelations (relations : List RelationDef) : Except AppError Unit :=
  match relations.find? (fun r => r.type == "one-to-many" && r.inversePropertyName.isNone) with
  | some r =>
    .error (.validation
      ("One-to-many relation " ++ r.propertyName ++ " must have inversePropertyName")
      r.propertyName)
  | none => .ok ()

/-- Modelled from the spec: `validateUniquePropertyNames`
(`table-management/utils/duplicate-field-check`, not under `src/`) — "no
duplicate property names across columns+relations — fails with
`ValidationError`".  It throws inside the try block, so only its message
reaches the catch, which reclassifies it. -/
def validateUniquePropertyNames (columns : List ColumnDef) (relations : List RelationDef) :
    Except String Unit :=
  let names := columns.map (·.name) ++ relations.map (·.propertyName)
  if names.Nodup then .ok ()
  else .error "Duplicate property names across columns and relations"

/-- Modelled from the spec: `getDeletedIds`
(`table-management/utils/get-deleted-ids`, not under `src/`) — "the set
difference between existing and submitted columns/relations (by
identity)": the ids of existing rows whose id does not occur among the
submitted items' ids. -/
def getDeletedIds (existingIds submittedIds : List (Option Nat)) : List Nat :=
  (existingIds.filterMap id).filter (fun i => !(submittedIds.contains (some i)))

/-! ## createTable -/

def validTypes : List String := ["int", "uuid"]

/-- `createTable`: validate relations, reject when the name exists both
physically and as metadata, enforce the single `id` primary column of
type `int`/`uuid` and unique property names, then persist the stripped
draft, invoke the propagation hook with `type: "create"`, and create the
`/`+name route unless one already exists. -/
def createTable (body : CreateBody) (s : DBState) :
    Except AppError TableDef × DBState × List TableEvent :=
  match validateRelations body.relations with
  | .error e => (.error e, s, [])
  | .ok _ =>
    let hasTable := s.physicalTables.contains body.name
    let existing := (s.tables.find? (fun t => t.name == body.name)).isSome
    if hasTable && existing then
      (.error (classifyCreateError ("Table " ++ body.name ++ " already exists!") body.name), s, [])
    else
      match body.columns.find? (fun c => c.name == "id" && c.isPrimary) with
      | none =>
        (.error (classifyCreateError "Table must contain a column named id with isPrimary = true." body.name), s, [])
      | some idCol =>
        if !(validTypes.contains idCol.type) then
          (.error (classifyCreateError "The primary column id must be of type int or uuid." body.name), s, [])
        else if (body.columns.filter (·.isPrimary)).length != 1 then
          (.error (classifyCreateError "Only one column is allowed to have isPrimary = true." body.name), s, [])
        else
          match validateUniquePropertyNames body.columns body.relations with
          | .error msg => (.error (classifyCreateError msg body.name), s, [])
          | .ok _ =>
            let newColumns := body.columns.map (fun c => { c with table := none })
            let newRelations := body.relations.map (fun r => { r with sourceTable := none })
            let result : TableDef :=
              { id := s.nextId, name := body.name,
                columns := newColumns, relations := newRelations }
            let s1 := { s with tables := s.tables ++ [result], nextId := s.nextId + 1 }
            let existingRoute := (s1.routes.find? (fun r => r.path == "/" ++ result.name)).isSome
            if existingRoute then
              (.ok result, s1, [.saveTable result.name, .hookE result.name "create"])
            else
              let s2 := { s1 with routes := s1.routes ++
                [{ path := "/" ++ result.name, mainTable := result.id, isEnabled := true }] }
              (.ok result, s2,
                [.saveTable result.name, .hookE result.name "create",
                 .saveRoute ("/" ++ result.name)])

/-! ## updateTable -/

/-- `updateTable`: validate relations, find the table by id (else
not-found), require a primary column and unique property names, delete
the columns/relations whose ids are absent from the submission, then
reattach the full submitted lists (each stamped with the table id) and
persist, firing the hook with `type: "update"`. -/
def updateTable (idv : Nat) (body : CreateBody) (s : DBState) :
    Except AppError TableDef × DBState × List TableEvent :=
  match validateRelations body.relations with
  | .error e => (.error e, s, [])
  | .ok _ =>
    match s.tables.find? (fun t => t.id == idv) with
    | none =>
      (.error (classifyUpdateError ("Table " ++ body.name ++ " does not exist.") idv), s, [])
    | some found =>
      if !(body.columns.any (·.isPrimary)) then
        (.error (classifyUpdateError "Table must contain an id column with isPrimary = true!" idv), s, [])
      else
        match validateUniquePropertyNames body.columns body.relations with
        | .error msg => (.error (classifyUpdateError msg idv), s, [])
        | .ok _ =>
          let deletedColumnIds := getDeletedIds (found.columns.map (·.id)) (body.columns.map (·.id))
          let deletedRelationIds := getDeletedIds (found.relations.map (·.id)) (body.relations.map (·.id))
          let delEvents :=
            (if deletedColumnIds.length != 0 then [TableEvent.deleteColumns deletedColumnIds] else []) ++
            (if deletedRelationIds.length != 0 then [TableEvent.deleteRelations deletedRelationIds] else [])
          let sDel := { s with tables := s.tables.map (fun t : TableDef =>
            { t with
              columns := t.columns.filter (fun c => !(deletedColumnIds.any (fun i => c.id == some i))),
              relations := t.relations.filter (fun r => !(deletedRelationIds.any (fun i => r.id == some i))) }) }
          let newRelations := body.relations.map (fun r => { r with sourceTable := some found.id })
          let newColumns := body.columns.map (fun c => { c with table := some found.id })
          let result : TableDef :=
            { id := found.id, name := body.name,
              columns := newColumns, relations := newRelations }
          let s1 := { sDel with tables := sDel.tables.map (fun t : TableDef => if t.id == found.id then result else t) }
          (.ok result, s1, delEvents ++ [.saveTable result.name, .hookE result.name "update"])

/-! ## delete -/

/-- The `LIKE` prefix test of the introspection query, on character
lists so that it evaluates inside the kernel. -/
def strStartsWith (s pre : String) : Bool :=
  pre.data.isPrefixOf s.data

/-- The introspection query for step 3 of deletion: constraints in any
table that reference `tableName`, restricted to names starting `FK_`. -/
def referencingFKsOf (s : DBState) (tableName : String) : List FKConstraint :=
  s.foreignKeys.filter (fun fk => fk.referencedTable == some tableName && strStartsWith fk.name "FK_")

/-- The introspection query for step 4 of deletion: constraints on
`tableName` itself whose referenced table is not null. -/
def outgoingFKsOf (s : DBState) (tableName : String) : List FKConstraint :=
  s.foreignKeys.filter (fun fk => fk.table == tableName && fk.referencedTable.isSome)

/-- One `ALTER TABLE ... DROP FOREIGN KEY` attempt: a failing drop is
logged and skipped (state unchanged), a successful one removes the
constraint. -/
def dropOneFK (env : TableEnv) (mk : String → Bool → TableEvent)
    (acc : DBState × List TableEvent) (fkName : String) : DBState × List TableEvent :=
  let (s, evs) := acc
  if env.fkDropFails.contains fkName then
    (s, evs ++ [mk fkName false])
  else
    ({ s with foreignKeys := s.foreignKeys.filter (fun fk => fk.name != fkName) },
      evs ++ [mk fkName true])

/-- The per-constraint drop loop of deletion steps 3 and 4. -/
def dropFKs (env : TableEnv) (mk : String → Bool → TableEvent)
    (s : DBState) (names : List String) : DBState × List TableEvent :=
  names.foldl (dropOneFK env mk) (s, [])

/-- `delete`: find the table by id (else not-found), then in order delete
its routes, delete relations targeting it, best-effort drop referencing
then outgoing foreign keys, drop the physical table if present, remove
the metadata row, and fire the hook with `type: "update"`. -/
def delete (idv : Nat) (env : TableEnv) (s : DBState) :
    Except AppError TableDef × DBState × List TableEvent :=
  match s.tables.find? (fun t => t.id == idv) with
  | none =>
    (.error (classifyDeleteError ("Table with id " ++ toString idv ++ " does not exist.") idv), s, [])
  | some found =>
    let tableName := found.name
    let s1 := { s with routes := s.routes.filter (fun r => r.mainTable != idv) }
    let s2 := { s1 with tables := s1.tables.map (fun t : TableDef =>
      { t with relations := t.relations.filter (fun r => r.targetTable != some idv) }) }
    let refNames := (referencingFKsOf s2 tableName).map (·.name)
    let (s3, e3) := dropFKs env TableEvent.dropReferencingFK s2 refNames
    let outNames := (outgoingFKsOf s3 tableName).map (·.name)
    let (s4, e4) := dropFKs env TableEvent.dropOutgoingFK s3 outNames
    let hasT := s4.physicalTables.contains tableName
    let s5 := if hasT then
        { s4 with physicalTables := s4.physicalTables.filter (fun n => n != tableName) }
      else s4
    let e5 := if hasT then [TableEvent.dropPhysicalTable tableName] else []
    let s6 := { s5 with tables := s5.tables.filter (fun t => t.id != idv) }
    (.ok found, s6,
      [TableEvent.deleteRoutes idv, TableEvent.deleteTargetRelations idv] ++ e3 ++ e4 ++ e5 ++
        [TableEvent.removeMetadata idv, TableEvent.hookE tableName "update"])

/-! ## Helper lemmas -/

theorem strIncludes_append_left (a b pat : String) (h : strIncludes b pat = true) :
    strIncludes (a ++ b) pat = true := by
  unfold strIncludes at h ⊢
  rw [decide_eq_true_eq] at h ⊢
  rw [String.data_append]
  obtain ⟨u, t, hut⟩ := h
  exact ⟨a.data ++ u, t, by rw [← hut]; simp [List.append_assoc]⟩

theorem stringAppend_assoc (a b c : String) : (a ++ b) ++ c = a ++ (b ++ c) := by
  apply String.ext
  simp [String.data_append, List.append_assoc]

theorem reloadPackageCache_revalidating (env : CacheEnv) (s : CacheState) :
    (reloadPackageCache env s).1.revalidating = s.revalidating := by
  unfold reloadPackageCache
  cases h : loadPackagesR env <;> simp

theorem dbLoadE_mem_reload (env : CacheEnv) (s : CacheState) :
    CacheEvent.dbLoadE env.dbOk ∈ (reloadPackageCache env s).2 := by
  unfold reloadPackageCache loadPackagesR
  cases h : env.dbOk <;> simp [h]

/-! ## Claims about the cache layer -/

/-- C1: for every cache state, `getPackagesWithSWR` follows the SWR
algorithm: a present primary value is returned immediately and nothing
else happens; otherwise stale and the revalidating marker are both read,
and a present stale value is returned immediately with a background
revalidation started exactly when the marker is absent; when both primary
and stale are absent the call performs a synchronous
`loadAndCachePackages` and returns its result. -/
theorem getPackagesWithSWR_follows_swr (env : CacheEnv) (s : CacheState) :
    (∀ v, s.primary = some v →
      getPackagesWithSWR env s = ⟨.ok v, s, [.getE GLOBAL_PACKAGES_KEY], false⟩) ∧
    (∀ v, s.primary = none → s.stale = some v →
      (getPackagesWithSWR env s).result = .ok v ∧
      (getPackagesWithSWR env s).state = s ∧
      (getPackagesWithSWR env s).events =
        [.getE GLOBAL_PACKAGES_KEY, .getE STALE_PACKAGES_KEY, .getE REVALIDATING_PACKAGES_KEY] ∧
      ((getPackagesWithSWR env s).revalidationStarted = true ↔ s.revalidating = none)) ∧
    (s.primary = none → s.stale = none →
      (getPackagesWithSWR env s).result = (loadAndCachePackages env s).1 ∧
      (getPackagesWithSWR env s).state = (loadAndCachePackages env s).2.1 ∧
      (getPackagesWithSWR env s).revalidationStarted = false) := by
  refine ⟨?_, ?_, ?_⟩
  · intro v hp
    simp [getPackagesWithSWR, hp]
  · intro v hp hs
    simp [getPackagesWithSWR, hp, hs, Option.isNone_iff_eq_none]
  · intro hp hs
    rcases hL : loadAndCachePackages env s with ⟨r, s1, evs⟩
    simp [getPackagesWithSWR, hp, hs, hL]

/-- C1 witness: a present primary value `["a"]` is returned as-is. -/
theorem getPackagesWithSWR_follows_swr_witness :
    getPackagesWithSWR ⟨[], true⟩ ⟨some ["a"], none, none⟩ =
      ⟨.ok ["a"], ⟨some ["a"], none, none⟩, [.getE GLOBAL_PACKAGES_KEY], false⟩ :=
  (getPackagesWithSWR_follows_swr ⟨[], true⟩ ⟨some ["a"], none, none⟩).1 ["a"] rfl

/-- C4 counterexample: on a cold start (no primary, no stale) with a
failing database load, `getPackagesWithSWR` propagates the error instead
of returning a snapshot. -/
theorem getPackagesWithSWR_cold_start_error :
    ((getPackagesWithSWR ⟨[], false⟩ ⟨none, none, none⟩).result).isOk = false := by decide

/-- C4 amended: the read path returns a snapshot (never an error) on
every execution path except the cold start with a failing synchronous
load: whenever the database load succeeds, or primary or stale is
present, the caller receives a snapshot. -/
theorem getPackagesWithSWR_ok_unless_cold_load_fails (env : CacheEnv) (s : CacheState)
    (h : env.dbOk = true ∨ s.primary.isSome = true ∨ s.stale.isSome = true) :
    ((getPackagesWithSWR env s).result).isOk = true := by
  cases hp : s.primary with
  | some v => simp [getPackagesWithSWR, hp, Except.isOk, Except.toBool]
  | none =>
    cases hs : s.stale with
    | some v => simp [getPackagesWithSWR, hp, hs, Except.isOk, Except.toBool]
    | none =>
      rcases h with h | h | h
      · simp [getPackagesWithSWR, hp, hs, loadAndCachePackages, loadPackagesR, h, Except.isOk, Except.toBool]
      · simp [hp] at h
      · simp [hs] at h

/-- C4 amended witness: a cold start with a working database returns a
snapshot. -/
theorem getPackagesWithSWR_ok_unless_cold_load_fails_witness :
    ((getPackagesWithSWR ⟨[], true⟩ ⟨none, none, none⟩).result).isOk = true :=
  getPackagesWithSWR_ok_unless_cold_load_fails ⟨[], true⟩ ⟨none, none, none⟩ (Or.inl rfl)

/-- C5: `backgroundRevalidate` either finds the marker taken and returns
immediately (state unchanged, no reload, no release), or acquires the
marker with a 30-second TTL, performs the reload, and then releases the
marker by compare-and-delete — the release succeeds and the trace ends
with it whether the reload succeeded (`dbLoadE true`) or failed
(`dbLoadE false`). -/
theorem backgroundRevalidate_marker_protocol (env : CacheEnv) (s : CacheState) :
    (s.revalidating.isSome = true →
      backgroundRevalidate env s =
        (s, [.acquireE REVALIDATING_PACKAGES_KEY 30000 false])) ∧
    (s.revalidating = none →
      (backgroundRevalidate env s).2 =
        .acquireE REVALIDATING_PACKAGES_KEY 30000 true ::
          ((reloadPackageCache env { s with revalidating := some "true" }).2 ++
            [.releaseE REVALIDATING_PACKAGES_KEY true]) ∧
      CacheEvent.dbLoadE env.dbOk ∈
        (reloadPackageCache env { s with revalidating := some "true" }).2 ∧
      (backgroundRevalidate env s).1.revalidating = none) := by
  constructor
  · intro h
    obtain ⟨w, hw⟩ := Option.isSome_iff_exists.mp h
    have : s = { s with revalidating := some w } := by
      cases s with | mk p st r => simp at hw; simp [hw]
    simp [backgroundRevalidate, kvAcquire, hw]
    cases s with | mk p st r => simp_all
  · intro h
    have hrev : (reloadPackageCache env { s with revalidating := some "true" }).1.revalidating
        = some "true" := by
      rw [reloadPackageCache_revalidating]
    rcases hR : reloadPackageCache env { s with revalidating := some "true" } with ⟨s2, evs⟩
    have h2 : s2.revalidating = some "true" := by rw [← hrev, hR]
    refine ⟨?_, ?_, ?_⟩
    · simp [backgroundRevalidate, kvAcquire, h, hR, kvRelease, h2]
    · have := dbLoadE_mem_reload env { s with revalidating := some "true" }
      rw [hR] at this
      exact this
    · simp [backgroundRevalidate, kvAcquire, h, hR, kvRelease, h2]

/-- C5 witness: with the marker already present, `backgroundRevalidate`
returns immediately with only the failed acquire in its trace. -/
theorem backgroundRevalidate_marker_protocol_witness :
    backgroundRevalidate ⟨[], true⟩ ⟨none, some ["a"], some "true"⟩ =
      (⟨none, some ["a"], some "true"⟩,
        [.acquireE REVALIDATING_PACKAGES_KEY 30000 false]) :=
  (backgroundRevalidate_marker_protocol ⟨[], true⟩ ⟨none, some ["a"], some "true"⟩).1 rfl

/-- C10: `loadAndCachePackages` writes the primary key with
set-if-absent: whenever the primary key is already present and the load
succeeds, the primary value is left unchanged while the stale key is
overwritten with the freshly loaded snapshot and that fresh snapshot is
returned. -/
theorem loadAndCachePackages_primary_set_if_absent (env : CacheEnv) (s : CacheState)
    (v : List String) (hdb : env.dbOk = true) (hp : s.primary = some v) :
    (loadAndCachePackages env s).1 = .ok (loadPackages env.rows) ∧
    (loadAndCachePackages env s).2.1.primary = some v ∧
    (loadAndCachePackages env s).2.1.stale = some (loadPackages env.rows) := by
  simp [loadAndCachePackages, loadPackagesR, hdb, hp, kvAcquire, kvSet]

/-- C10 witness: with `["old"]` cached as primary and a database holding
the enabled Backend package `new`, the call returns `.ok ["new"]` and
overwrites stale, while a subsequent primary read still yields
`["old"]` — a different value. -/
theorem loadAndCachePackages_primary_set_if_absent_witness :
    (loadAndCachePackages ⟨[⟨"new", true, "Backend"⟩], true⟩ ⟨some ["old"], none, none⟩).1
        = .ok ["new"] ∧
    (loadAndCachePackages ⟨[⟨"new", true, "Backend"⟩], true⟩ ⟨some ["old"], none, none⟩).2.1.primary
        = some ["old"] ∧
    (loadAndCachePackages ⟨[⟨"new", true, "Backend"⟩], true⟩ ⟨some ["old"], none, none⟩).2.1.stale
        = some ["new"] ∧
    (["old"] : List String) ≠ ["new"] := by
  have h := loadAndCachePackages_primary_set_if_absent
    ⟨[⟨"new", true, "Backend"⟩], true⟩ ⟨some ["old"], none, none⟩ ["old"] rfl rfl
  exact ⟨h.1, h.2.1, h.2.2, by decide⟩

/-! ## Sample inputs shared by witnesses and counterexamples -/

def sampleIdCol : ColumnDef := ⟨none, "id", "int", true, none⟩
def emptyDB : DBState := ⟨[], [], [], [], 1⟩
def ordersBody : CreateBody := ⟨"orders", [sampleIdCol], []⟩

/-! ## Substring facts for the catch-block classification -/

theorem already_exists_included (name : String) :
    strIncludes ("Table " ++ name ++ " already exists!") "already exists" = true :=
  strIncludes_append_left ("Table " ++ name) " already exists!" "already exists" (by decide)

theorem does_not_exist_included (idv : Nat) :
    strIncludes ("Table with id " ++ toString idv ++ " does not exist.") "does not exist" = true :=
  strIncludes_append_left ("Table with id " ++ toString idv) " does not exist."
    "does not exist" (by decide)

/-! ## Claims about createTable -/

/-- C2 counterexample: a name existing only as a physical table, or only
as a metadata row, does not make `createTable` fail — it succeeds in both
cases, so existence of either one alone is not sufficient. -/
theorem createTable_single_existence_not_rejected :
    ((createTable ordersBody { emptyDB with physicalTables := ["orders"] }).1).isOk = true ∧
    ((createTable ordersBody
      { emptyDB with tables := [⟨9, "orders", [], []⟩] }).1).isOk = true := by
  constructor <;> decide

/-- C2 amended: `createTable` fails with `DuplicateResourceError` when
the requested name exists both as a metadata row and as a physical table
(and the draft passes relation validation, which runs first); if only one
of the two exists, creation proceeds. -/
theorem createTable_duplicate_requires_both (body : CreateBody) (s : DBState)
    (hval : validateRelations body.relations = .ok ())
    (hphys : body.name ∈ s.physicalTables)
    (hmeta : ∃ t ∈ s.tables, t.name = body.name) :
    (createTable body s).1 = .error (.duplicateResource "Table" "name" body.name) := by
  simp [createTable, hval, hphys, hmeta, classifyCreateError, already_exists_included]

/-- C2 amended witness: with `orders` present both physically and as
metadata, creation fails with the duplicate error. -/
theorem createTable_duplicate_requires_both_witness :
    (createTable ordersBody
        { emptyDB with physicalTables := ["orders"], tables := [⟨9, "orders", [], []⟩] }).1 =
      .error (.duplicateResource "Table" "name" "orders") :=
  createTable_duplicate_requires_both ordersBody
    { emptyDB with physicalTables := ["orders"], tables := [⟨9, "orders", [], []⟩] }
    rfl (by decide) (by decide)

/-- C3 counterexample: on a successful create of `orders` into an empty
database, the Change Propagation Hook is invoked within the first two
recorded effects while the route save is not — the hook fires before the
route is created, not after. -/
theorem createTable_hook_fires_before_route :
    (createTable ordersBody emptyDB).2.2 =
      [.saveTable "orders", .hookE "orders" "create", .saveRoute "/orders"] ∧
    TableEvent.hookE "orders" "create" ∈ ((createTable ordersBody emptyDB).2.2).take 2 ∧
    TableEvent.saveRoute "/orders" ∉ ((createTable ordersBody emptyDB).2.2).take 2 := by
  refine ⟨by decide, by decide, by decide⟩

/-- C3 amended: on a successful create, `createTable` first persists the
table metadata, then invokes the Change Propagation Hook with
`{entityName, type: "create"}`, and only after that creates the Route
Definition with path `/`+name (skipped if a route with that path already
exists). -/
theorem createTable_success_event_order (body : CreateBody) (s : DBState) (c : ColumnDef)
    (hval : validateRelations body.relations = .ok ())
    (hdup : ¬(body.name ∈ s.physicalTables ∧ ∃ t ∈ s.tables, t.name = body.name))
    (hid : body.columns.find? (fun col => col.name == "id" && col.isPrimary) = some c)
    (hty : c.type ∈ validTypes)
    (hone : (body.columns.filter (fun col => col.isPrimary)).length = 1)
    (huniq : validateUniquePropertyNames body.columns body.relations = .ok ()) :
    ((createTable body s).1).isOk = true ∧
    (createTable body s).2.2 =
      .saveTable body.name :: .hookE body.name "create" ::
        (if (s.routes.find? (fun r => r.path == "/" ++ body.name)).isSome then []
         else [.saveRoute ("/" ++ body.name)]) := by
  by_cases hroute : ∃ r ∈ s.routes, r.path = "/" ++ body.name
  · simp [createTable, hval, hdup, hid, hty, hone, huniq, hroute, Except.isOk, Except.toBool]
  · simp [createTable, hval, hdup, hid, hty, hone, huniq, hroute, Except.isOk, Except.toBool]

/-- C3 amended witness: creating `orders` in an empty database records
save, then hook, then route creation. -/
theorem createTable_success_event_order_witness :
    ((createTable ordersBody emptyDB).1).isOk = true ∧
    (createTable ordersBody emptyDB).2.2 =
      [.saveTable "orders", .hookE "orders" "create", .saveRoute "/orders"] := by
  have h := createTable_success_event_order ordersBody emptyDB sampleIdCol
    rfl (by decide) (by decide) (by decide) (by decide) (by decide)
  exact ⟨h.1, by rw [h.2]; rfl⟩

/-! ## Claims about delete -/

/-- C7: deleting an id with no metadata row fails with
`ResourceNotFoundError` and modifies nothing: the returned state is the
input state and the effect trace is empty. -/
theorem delete_missing_table_not_found (idv : Nat) (env : TableEnv) (s : DBState)
    (h : s.tables.find? (fun t => t.id == idv) = none) :
    delete idv env s = (.error (.resourceNotFound "Table" (toString idv)), s, []) := by
  simp [delete, h, classifyDeleteError, does_not_exist_included]

/-- C7 witness: deleting id 5 from an empty database fails with the
not-found error and leaves the database untouched. -/
theorem delete_missing_table_not_found_witness :
    delete 5 ⟨[]⟩ emptyDB = (.error (.resourceNotFound "Table" "5"), emptyDB, []) :=
  delete_missing_table_not_found 5 ⟨[]⟩ emptyDB rfl

/-! ## C8: validation rejections of createTable -/

/-- If some `one-to-many` relation lacks `inversePropertyName`, then
`validateRelations` fails, naming such a relation. -/
theorem validateRelations_error_of_mem (relations : List RelationDef) (r : RelationDef)
    (hm : r ∈ relations) (ht : r.type = "one-to-many") (hi : r.inversePropertyName = none) :
    ∃ r', r' ∈ relations ∧ r'.type = "one-to-many" ∧ r'.inversePropertyName = none ∧
      validateRelations relations = .error (.validation
        ("One-to-many relation " ++ r'.propertyName ++ " must have inversePropertyName")
        r'.propertyName) := by
  have hex : (relations.find? (fun q => q.type == "one-to-many" && q.inversePropertyName.isNone)).isSome = true := by
    rw [List.find?_isSome]
    exact ⟨r, hm, by simp [ht, hi]⟩
  obtain ⟨r', hr'⟩ := Option.isSome_iff_exists.mp hex
  have hmem := List.mem_of_find?_eq_some hr'
  have hpred := List.find?_some hr'
  simp [Option.isNone_iff_eq_none] at hpred
  exact ⟨r', hmem, hpred.1, hpred.2, by rw [validateRelations, hr']⟩

/-- A successful `createTable` implies the stages that precede
persistence all passed: relation validation, a primary column named `id`
of an allowed type, and exactly one primary column. -/
theorem createTable_ok_shape (body : CreateBody) (s : DBState)
    (h : ((createTable body s).1).isOk = true) :
    validateRelations body.relations = .ok () ∧
    (∃ c, body.columns.find? (fun col => col.name == "id" && col.isPrimary) = some c ∧
      validTypes.contains c.type = true) ∧
    (body.columns.filter (fun col => col.isPrimary)).length = 1 := by
  cases hv : validateRelations body.relations with
  | error e => simp [createTable, hv, Except.isOk, Except.toBool] at h
  | ok u =>
    by_cases hdup : body.name ∈ s.physicalTables ∧ ∃ t ∈ s.tables, t.name = body.name
    · simp [createTable, hv, hdup, Except.isOk, Except.toBool] at h
    · cases hid : body.columns.find? (fun col => col.name == "id" && col.isPrimary) with
      | none => simp [createTable, hv, hdup, hid, Except.isOk, Except.toBool] at h
      | some c =>
        by_cases hty : c.type ∈ validTypes
        · by_cases hone : (body.columns.filter (fun col => col.isPrimary)).length = 1
          · exact ⟨rfl, ⟨c, rfl, by simpa using hty⟩, hone⟩
          · simp [createTable, hv, hdup, hid, hty, hone, Except.isOk, Except.toBool] at h
        · simp [createTable, hv, hdup, hid, hty, Except.isOk, Except.toBool] at h

/-- C8: `createTable` rejects a draft with two primary columns, a draft
with no primary column named `id`, a draft whose `id` primary column has
a type other than `int`/`uuid`, and a draft containing a `one-to-many`
relation without `inversePropertyName` — the last with a
`ValidationError` carrying the offending relation's property name. -/
theorem createTable_validation_rejections (body : CreateBody) (s : DBState) :
    ((body.columns.filter (fun col => col.isPrimary)).length = 2 →
      ((createTable body s).1).isOk = false) ∧
    ((∀ c, c ∈ body.columns → ¬(c.name = "id" ∧ c.isPrimary = true)) →
      ((createTable body s).1).isOk = false) ∧
    (∀ c, body.columns.find? (fun col => col.name == "id" && col.isPrimary) = some c →
      c.type ≠ "int" → c.type ≠ "uuid" →
      ((createTable body s).1).isOk = false) ∧
    (∀ r, r ∈ body.relations → r.type = "one-to-many" → r.inversePropertyName = none →
      ∃ r', r' ∈ body.relations ∧ r'.type = "one-to-many" ∧ r'.inversePropertyName = none ∧
        (createTable body s).1 = .error (.validation
          ("One-to-many relation " ++ r'.propertyName ++ " must have inversePropertyName")
          r'.propertyName)) := by
  refine ⟨?_, ?_, ?_, ?_⟩
  · intro hlen
    cases hok : ((createTable body s).1).isOk with
    | false => rfl
    | true =>
      obtain ⟨_, _, hone⟩ := createTable_ok_shape body s hok
      rw [hlen] at hone
      exact absurd hone (by decide)
  · intro hnone
    cases hok : ((createTable body s).1).isOk with
    | false => rfl
    | true =>
      obtain ⟨_, ⟨c, hc, _⟩, _⟩ := createTable_ok_shape body s hok
      have hmem := List.mem_of_find?_eq_some hc
      have hpred := List.find?_some hc
      simp only [Bool.and_eq_true, beq_iff_eq] at hpred
      exact absurd ⟨hpred.1, hpred.2⟩ (hnone c hmem)
  · intro c hc hint huuid
    cases hok : ((createTable body s).1).isOk with
    | false => rfl
    | true =>
      obtain ⟨_, ⟨c', hc', hty⟩, _⟩ := createTable_ok_shape body s hok
      rw [hc] at hc'
      injection hc' with he
      subst he
      simp [validTypes] at hty
      rcases hty with hty | hty
      · exact (hint hty).elim
      · exact (huuid hty).elim
  · intro r hm ht hi
    obtain ⟨r', hmem, ht', hi', herr⟩ := validateRelations_error_of_mem body.relations r hm ht hi
    exact ⟨r', hmem, ht', hi', by simp [createTable, herr]⟩

/-- C8 witness: a draft with two primary columns is rejected. -/
theorem createTable_validation_rejections_witness :
    ((createTable ⟨"t2", [⟨none, "id", "int", true, none⟩, ⟨none, "x", "int", true, none⟩], []⟩
      emptyDB).1).isOk = false :=
  (createTable_validation_rejections
    ⟨"t2", [⟨none, "id", "int", true, none⟩, ⟨none, "x", "int", true, none⟩], []⟩
    emptyDB).1 (by decide)

/-! ## C6: the deletion sequence -/

theorem dropFKs_foldl_events (env : TableEnv) (mk : String → Bool → TableEvent) :
    ∀ (names : List String) (s : DBState) (evs : List TableEvent),
      (names.foldl (dropOneFK env mk) (s, evs)).2 =
        evs ++ names.map (fun n => mk n (!(env.fkDropFails.contains n))) := by
  intro names
  induction names with
  | nil => intro s evs; simp
  | cons n ns ih =>
    intro s evs
    by_cases h : n ∈ env.fkDropFails
    · simp [List.foldl_cons, dropOneFK, h, ih]
    · simp [List.foldl_cons, dropOneFK, h, ih]

theorem dropFKs_events (env : TableEnv) (mk : String → Bool → TableEvent)
    (s : DBState) (names : List String) :
    (dropFKs env mk s names).2 = names.map (fun n => mk n (!(env.fkDropFails.contains n))) := by
  simpa using dropFKs_foldl_events env mk names s []

theorem dropFKs_foldl_physicalTables (env : TableEnv) (mk : String → Bool → TableEvent) :
    ∀ (names : List String) (s : DBState) (evs : List TableEvent),
      ((names.foldl (dropOneFK env mk) (s, evs)).1).physicalTables = s.physicalTables := by
  intro names
  induction names with
  | nil => intro s evs; simp
  | cons n ns ih =>
    intro s evs
    by_cases h : n ∈ env.fkDropFails
    · simp [List.foldl_cons, dropOneFK, h, ih]
    · simp [List.foldl_cons, dropOneFK, h, ih]

theorem dropFKs_physicalTables (env : TableEnv) (mk : String → Bool → TableEvent)
    (s : DBState) (names : List String) :
    ((dropFKs env mk s names).1).physicalTables = s.physicalTables :=
  dropFKs_foldl_physicalTables env mk names s []

/-- C6: deleting an existing table returns the loaded row (never an
error, whatever set of foreign-key drops fails) and records exactly, in
order: route deletion, deletion of relations targeting the table, one
best-effort drop per referencing foreign key (`ok` false exactly on the
failing ones), one best-effort drop per outgoing foreign key discovered
after the referencing drops, the physical table drop when the table
physically exists, metadata removal, and the propagation hook with
`type: "update"`. -/
theorem delete_existing_table_sequence (idv : Nat) (env : TableEnv) (s : DBState) (t : TableDef)
    (hfind : s.tables.find? (fun q => q.id == idv) = some t) :
    (delete idv env s).1 = .ok t ∧
    (delete idv env s).2.2 =
      (let s2 := { { s with routes := s.routes.filter (fun r => r.mainTable != idv) } with
          tables := s.tables.map (fun q : TableDef =>
            { q with relations := q.relations.filter (fun r => r.targetTable != some idv) }) }
       let refs := (referencingFKsOf s2 t.name).map (fun fk => fk.name)
       let s3 := (dropFKs env TableEvent.dropReferencingFK s2 refs).1
       let outs := (outgoingFKsOf s3 t.name).map (fun fk => fk.name)
       [TableEvent.deleteRoutes idv, TableEvent.deleteTargetRelations idv] ++
         refs.map (fun n => TableEvent.dropReferencingFK n (!(env.fkDropFails.contains n))) ++
         outs.map (fun n => TableEvent.dropOutgoingFK n (!(env.fkDropFails.contains n))) ++
         (if t.name ∈ s.physicalTables then [TableEvent.dropPhysicalTable t.name] else []) ++
         [TableEvent.removeMetadata idv, TableEvent.hookE t.name "update"]) := by
  constructor
  · simp [delete, hfind]
  · simp only [delete, hfind]
    rw [dropFKs_events, dropFKs_events, dropFKs_physicalTables, dropFKs_physicalTables]
    simp

/-- C6 witness: a table with one referencing foreign key whose drop
fails, one whose drop succeeds, and a physical table present, produces
the full ordered trace and still succeeds. -/
theorem delete_existing_table_sequence_witness :
    (delete 1 ⟨["FK_bad"]⟩
      ⟨[⟨1, "posts", [], []⟩], [⟨"/posts", 1, true⟩], ["posts"],
        [⟨"FK_bad", "other", some "posts"⟩, ⟨"FK_good", "other", some "posts"⟩,
         ⟨"FK_out", "posts", some "other"⟩], 2⟩).1 = .ok ⟨1, "posts", [], []⟩ ∧
    (delete 1 ⟨["FK_bad"]⟩
      ⟨[⟨1, "posts", [], []⟩], [⟨"/posts", 1, true⟩], ["posts"],
        [⟨"FK_bad", "other", some "posts"⟩, ⟨"FK_good", "other", some "posts"⟩,
         ⟨"FK_out", "posts", some "other"⟩], 2⟩).2.2 =
      [.deleteRoutes 1, .deleteTargetRelations 1,
       .dropReferencingFK "FK_bad" false, .dropReferencingFK "FK_good" true,
       .dropOutgoingFK "FK_out" true,
       .dropPhysicalTable "posts", .removeMetadata 1, .hookE "posts" "update"] := by
  have h := delete_existing_table_sequence 1 ⟨["FK_bad"]⟩
    ⟨[⟨1, "posts", [], []⟩], [⟨"/posts", 1, true⟩], ["posts"],
      [⟨"FK_bad", "other", some "posts"⟩, ⟨"FK_good", "other", some "posts"⟩,
       ⟨"FK_out", "posts", some "other"⟩], 2⟩ ⟨1, "posts", [], []⟩ rfl
  exact ⟨h.1, by rw [h.2]; rfl⟩

/-! ## C9: updateTable diff-and-reattach -/

theorem mem_getDeletedIds (ex sub : List (Option Nat)) (i : Nat) :
    i ∈ getDeletedIds ex sub ↔ some i ∈ ex ∧ ¬ some i ∈ sub := by
  simp [getDeletedIds]

/-- C9: on a successful update the persisted table keeps its id, carries
exactly the submitted columns and relations each stamped with the table's
id as back-reference, the deleted identities are exactly the existing ids
absent from the submission, and the deletions are recorded before the
save that attaches the new set. -/
theorem updateTable_diff_and_reattach (idv : Nat) (body : CreateBody) (s : DBState) (t : TableDef)
    (hval : validateRelations body.relations = .ok ())
    (hfind : s.tables.find? (fun q => q.id == idv) = some t)
    (hprim : ∃ c ∈ body.columns, c.isPrimary = true)
    (huniq : validateUniquePropertyNames body.columns body.relations = .ok ()) :
    (updateTable idv body s).1 = .ok
      ⟨t.id, body.name,
        body.columns.map (fun c => { c with table := some t.id }),
        body.relations.map (fun q => { q with sourceTable := some t.id })⟩ ∧
    (updateTable idv body s).2.2 =
      (let dC := getDeletedIds (t.columns.map (fun c => c.id)) (body.columns.map (fun c => c.id))
       let dR := getDeletedIds (t.relations.map (fun q => q.id)) (body.relations.map (fun q => q.id))
       (if dC.length != 0 then [TableEvent.deleteColumns dC] else []) ++
         (if dR.length != 0 then [TableEvent.deleteRelations dR] else []) ++
         [TableEvent.saveTable body.name, TableEvent.hookE body.name "update"]) ∧
    (∀ i, i ∈ getDeletedIds (t.columns.map (fun c => c.id)) (body.columns.map (fun c => c.id)) ↔
      ((∃ c ∈ t.columns, c.id = some i) ∧ ¬∃ c ∈ body.columns, c.id = some i)) ∧
    (∀ i, i ∈ getDeletedIds (t.relations.map (fun q => q.id)) (body.relations.map (fun q => q.id)) ↔
      ((∃ q ∈ t.relations, q.id = some i) ∧ ¬∃ q ∈ body.relations, q.id = some i)) := by
  have hprim' : ¬ ∀ x ∈ body.columns, x.isPrimary = false := by
    obtain ⟨c, hc, hp⟩ := hprim
    intro hall
    have hcf := hall c hc
    rw [hp] at hcf
    exact absurd hcf (by decide)
  refine ⟨?_, ?_, ?_, ?_⟩
  · simp [updateTable, hval, hfind, hprim', huniq]
  · simp [updateTable, hval, hfind, hprim', huniq]
  · intro i
    simp [mem_getDeletedIds, List.mem_map]
  · intro i
    simp [mem_getDeletedIds, List.mem_map]

/-- C9 witness: replacing the columns of `posts` (existing ids 10, 11)
with the submitted list keeping only id 10 deletes exactly id 11 before
the save and reattaches both submitted columns with `table := 1`. -/
theorem updateTable_diff_and_reattach_witness :
    (updateTable 1
      ⟨"posts", [⟨some 10, "id", "int", true, none⟩, ⟨none, "extra", "text", false, none⟩], []⟩
      ⟨[⟨1, "posts", [⟨some 10, "id", "int", true, some 1⟩, ⟨some 11, "old", "text", false, some 1⟩], []⟩],
        [], [], [], 2⟩).1 =
      .ok ⟨1, "posts",
        [⟨some 10, "id", "int", true, some 1⟩, ⟨none, "extra", "text", false, some 1⟩], []⟩ ∧
    (updateTable 1
      ⟨"posts", [⟨some 10, "id", "int", true, none⟩, ⟨none, "extra", "text", false, none⟩], []⟩
      ⟨[⟨1, "posts", [⟨some 10, "id", "int", true, some 1⟩, ⟨some 11, "old", "text", false, some 1⟩], []⟩],
        [], [], [], 2⟩).2.2 =
      [.deleteColumns [11], .saveTable "posts", .hookE "posts" "update"] := by
  have h := updateTable_diff_and_reattach 1
    ⟨"posts", [⟨some 10, "id", "int", true, none⟩, ⟨none, "extra", "text", false, none⟩], []⟩
    ⟨[⟨1, "posts", [⟨some 10, "id", "int", true, some 1⟩, ⟨some 11, "old", "text", false, some 1⟩], []⟩],
      [], [], [], 2⟩
    ⟨1, "posts", [⟨some 10, "id", "int", true, some 1⟩, ⟨some 11, "old", "text", false, some 1⟩], []⟩
    rfl rfl (by decide) (by decide)
  exact ⟨h.1, by rw [h.2.1]; rfl⟩

end Enfyra
